import Mathlib

/-!
Verification of the query-execution core of the sqlite-mcp server
(`src/entry.py`).

The development embeds the Python source shallowly:

* `Response` is the uniform dictionary shape every handler returns
  (`success`, and optionally `results`, `message`, `id`, `error`).
* `isSelect` embeds the classifier
  `query.strip().lower().startswith("select")` at the character-list
  level (Python `str.strip` drops surrounding whitespace, `str.lower`
  lowercases each character, `startswith` is list-prefix).
* `execute_query_ev` embeds `execute_query` over an abstract engine
  `Behavior` recording the outcome of each engine step
  (connect / execute / commit) together with the rows a successful
  `fetchall` yields; it also returns the list of connection events
  (open, commit, close) the call performs, in order.  Exceptions the
  Python engine can raise are modelled as `Except String` outcomes and
  the embedding shows they are converted to failure `Response`s.
* `connExec` / `execute_query_db` instantiate the same control flow
  with a concrete model of the SQLite engine for the statement shapes
  the handlers build (`Stmt`): tables of rows, positional-binding
  arity checks, per-connection `last_insert_rowid` state (SQLite's
  `last_insert_rowid()` is connection-scoped and starts at 0 on a
  fresh connection), commit-on-write / rollback-on-close semantics.
* `create_item`, `update_item`, `get_all_tables`, `create_item_beh`
  embed the corresponding handlers.
-/

/-- Scalar values stored in the database: integers, text, or NULL.
REAL values are not needed by any property considered here. -/
inductive Value where
  | intV : Int → Value
  | textV : String → Value
  | nullV : Value
deriving DecidableEq

/-- A row as the handlers see it: `sqlite3.Row` converted with `dict(row)`,
an ordered mapping from column name to value. -/
abbrev Row := List (String × Value)

/-- The uniform response dictionary all handlers return:
`{success: bool, results?, message?, id?, error?}`. An absent key is `none`. -/
structure Response where
  success : Bool
  results : Option (List Row) := none
  message : Option String := none
  id : Option Value := none
  error : Option String := none
deriving DecidableEq

/-- The failure response `{"success": False, "error": str(e)}` built in the
`except` branch of `execute_query`. -/
def mkFailure (e : String) : Response :=
  { success := false, error := some e }

/-- Python `str.strip` on a character list: drop leading and trailing
whitespace. -/
def pyStrip (cs : List Char) : List Char :=
  ((cs.dropWhile Char.isWhitespace).reverse.dropWhile Char.isWhitespace).reverse

/-- The read/write classifier of `execute_query`:
`query.strip().lower().startswith("select")`. -/
def isSelect (q : String) : Bool :=
  "select".toList.isPrefixOf ((pyStrip q.toList).map Char.toLower)

/-- Connection events performed by one `execute_query` call:
`sqlite3.connect`, `conn.commit()`, `conn.close()`. -/
inductive Event where
  | openConn
  | commitEv
  | closeConn
deriving DecidableEq

/-- Abstract behaviour of the SQLite engine during one `execute_query`
call: the outcome of each step the Python code performs, with raised
exceptions modelled as `Except.error` carrying the stringified message. -/
structure Behavior where
  connect : Except String Unit
  execBound : List Value → Except String Unit
  execUnbound : Except String Unit
  fetchRows : List Row
  commit : Except String Unit

/-- Python truthiness of the `parameters` argument in `if parameters:`:
`None` and an empty collection are falsy. -/
def paramsTruthy : Option (List Value) → Bool
  | none => false
  | some ps => !ps.isEmpty

/-- The execute step of `execute_query`:
`cursor.execute(query, parameters)` when `parameters` is truthy,
`cursor.execute(query)` otherwise. -/
def effExec (b : Behavior) (ps : Option (List Value)) : Except String Unit :=
  if paramsTruthy ps then b.execBound (ps.getD []) else b.execUnbound

/-- Embedding of `execute_query` over an abstract engine behaviour,
also returning the ordered list of connection events the call performs.
The Python function opens a connection inside `try`, executes, then either
fetches (select) or commits (write); any exception is caught and converted
to a failure response; `finally` closes the connection when one was opened. -/
def execute_query_ev (b : Behavior) (query : String) (parameters : Option (List Value)) :
    Response × List Event :=
  match b.connect with
  | .error e => (mkFailure e, [])
  | .ok _ =>
    match effExec b parameters with
    | .error e => (mkFailure e, [Event.openConn, Event.closeConn])
    | .ok _ =>
      if isSelect query then
        ({ success := true, results := some b.fetchRows }, [Event.openConn, Event.closeConn])
      else
        match b.commit with
        | .error e => (mkFailure e, [Event.openConn, Event.commitEv, Event.closeConn])
        | .ok _ =>
          ({ success := true, message := some "Query executed successfully" },
            [Event.openConn, Event.commitEv, Event.closeConn])

/-- The response of `execute_query` (the value the Python function returns). -/
def execute_query (b : Behavior) (query : String) (parameters : Option (List Value)) :
    Response :=
  (execute_query_ev b query parameters).1

/-- Count how many of the three payload variants of a response are present. -/
def popCount (r : Response) : Nat :=
  (if r.results.isSome then 1 else 0) + (if r.message.isSome then 1 else 0) +
    (if r.error.isSome then 1 else 0)

/-- A table of the modelled SQLite database: a name, ordered column names,
rows tagged with their rowid, and the next rowid the engine will assign
(SQLite assigns a fresh positive rowid to each inserted row). -/
structure Table where
  name : String
  cols : List String
  rows : List (Nat × Row)
  nextRowid : Nat
deriving DecidableEq

/-- The modelled database file: its tables. -/
structure DB where
  tables : List Table
deriving DecidableEq

/-- A live connection: the database it sees plus the connection-scoped
`last_insert_rowid` value, which starts at 0 on a fresh connection. -/
structure Conn where
  db : DB
  lastRowid : Nat
deriving DecidableEq

/-- Find a table by name. -/
def findTable (db : DB) (t : String) : Option Table :=
  db.tables.find? (fun tb => tb.name == t)

/-- Replace the table(s) named `t` by `tbl2`. -/
def replaceTable (db : DB) (t : String) (tbl2 : Table) : DB :=
  { tables := db.tables.map (fun tb => if tb.name == t then tbl2 else tb) }

/-- SQL `=` comparison used in `WHERE`/binding: NULL compares equal to
nothing (including NULL); other values compare by equality. -/
def sqlEq : Value → Value → Bool
  | .nullV, _ => false
  | _, .nullV => false
  | a, b => a == b

/-- Bytewise (codepoint) comparison of character lists: the BINARY
collation SQLite uses for `ORDER BY name` on text. -/
def charListLe : List Char → List Char → Bool
  | [], _ => true
  | _ :: _, [] => false
  | a :: as, b :: bs =>
    Nat.blt a.toNat b.toNat || (a.toNat == b.toNat && charListLe as bs)

/-- BINARY-collation comparison on strings. -/
def strLe (a b : String) : Bool := charListLe a.data b.data

/-- The ordering SQLite's `ORDER BY name` applies to the catalog query. -/
def sortStrings (l : List String) : List String :=
  List.insertionSort (fun a b => strLe a b = true) l

/-- Python join of the parts with a comma-space separator. -/
def joinComma : List String → String
  | [] => ""
  | [x] => x
  | x :: xs => x ++ (", " ++ joinComma xs)

/-- The statement shapes the handlers build (identifiers interpolated into
the SQL text, values bound positionally). -/
inductive Stmt where
  | insertS (table : String) (cols : List String)
  | updateS (table : String) (setCols : List String) (whereCol : String)
  | deleteS (table : String) (whereCol : String)
  | selectAllS (table : String)
  | selectWhereS (table : String) (col : String)
  | lastRowidS
  | listTablesS
deriving DecidableEq

/-- The SQL text each handler builds for its statement, exactly as the
Python f-strings produce it (`get_all_tables` uses a triple-quoted literal
with leading and trailing whitespace). -/
def Stmt.toSql : Stmt → String
  | .insertS t cols =>
    "INSERT INTO " ++ (t ++ (" (" ++ (joinComma cols ++ (") VALUES (" ++
      (joinComma (cols.map (fun _ => "?")) ++ ");")))))
  | .updateS t setCols whereCol =>
    "UPDATE " ++ (t ++ (" SET " ++ (joinComma (setCols.map (fun c => c ++ " = ?")) ++
      (" WHERE " ++ (whereCol ++ " = ?;")))))
  | .deleteS t whereCol =>
    "DELETE FROM " ++ (t ++ (" WHERE " ++ (whereCol ++ " = ?;")))
  | .selectAllS t => "SELECT * FROM " ++ (t ++ ";")
  | .selectWhereS t col =>
    "SELECT * FROM " ++ (t ++ (" WHERE " ++ (col ++ " = ?;")))
  | .lastRowidS => "SELECT last_insert_rowid();"
  | .listTablesS =>
    "\n    SELECT name \n    FROM sqlite_master \n    WHERE type='table' \n    ORDER BY name;\n    "

/-- Number of positional placeholders in each statement shape. -/
def Stmt.placeholders : Stmt → Nat
  | .insertS _ cols => cols.length
  | .updateS _ setCols _ => setCols.length + 1
  | .deleteS _ _ => 1
  | .selectAllS _ => 0
  | .selectWhereS _ _ => 1
  | .lastRowidS => 0
  | .listTablesS => 0

/-- The binding-arity error message of the `sqlite3` module. -/
def bindArityMsg (uses supplied : Nat) : String :=
  "Incorrect number of bindings supplied. The current statement uses " ++
    (toString uses ++ (", and there are " ++ (toString supplied ++ " supplied.")))

/-- Does a row satisfy `WHERE whereCol = ?` with bound value `w`? -/
def rowMatches (whereCol : String) (w : Value) (r : Row) : Bool :=
  match List.lookup whereCol r with
  | some v => sqlEq v w
  | none => false

/-- Apply the assignments of a `SET` clause to one row: columns named in
`assigned` take their new value, all other columns are untouched. -/
def setRow (assigned : List (String × Value)) (r : Row) : Row :=
  r.map (fun p =>
    match List.lookup p.1 assigned with
    | some nv => (p.1, nv)
    | none => p)

/-- The table that results from `UPDATE <tbl> SET <data> WHERE <col> = <mval>`:
matching rows have the data columns overwritten, all other rows and all
other fields of the table are untouched. -/
def updatedTable (tbl : Table) (data : List (String × Value)) (col : String)
    (mval : Value) : Table :=
  { tbl with rows := tbl.rows.map (fun pr =>
      if rowMatches col mval pr.2 then (pr.1, setRow data pr.2) else pr) }

/-- Statement shapes the engine's prepare step rejects with a syntax
error: an empty data mapping makes the handlers render the degenerate
texts `UPDATE <t> SET  WHERE <c> = ?;` and `INSERT INTO <t> () VALUES ();`,
which SQLite refuses to prepare — the spec records that the source lets
such empty mappings fail at the executor. -/
def syntaxError? : Stmt → Option String
  | .insertS _ [] => some "near \")\": syntax error"
  | .updateS _ [] _ => some "near \"WHERE\": syntax error"
  | _ => none

/-- One cursor execution on a live connection of the modelled engine:
prepares the statement (rejecting the degenerate empty-clause shapes with
SQLite's syntax error), checks binding arity like the `sqlite3` module,
then runs the statement.  Returns the updated connection, the fetched rows
(empty for writes) and the number of rows the statement affected
(`cursor.rowcount`, which the Python code never reads). -/
def connExec (c : Conn) (s : Stmt) (ps : List Value) :
    Except String (Conn × List Row × Nat) :=
  match syntaxError? s with
  | some e => .error e
  | none =>
  if ps.length ≠ s.placeholders then
    .error (bindArityMsg s.placeholders ps.length)
  else
    match s with
    | .insertS t cols =>
      match findTable c.db t with
      | none => .error ("no such table: " ++ t)
      | some tbl =>
        match cols.find? (fun cn => !(tbl.cols.contains cn)) with
        | some bad => .error ("table " ++ (t ++ (" has no column named " ++ bad)))
        | none =>
          let rid := tbl.nextRowid
          let assigned := cols.zip ps
          let newRow : Row :=
            tbl.cols.map (fun cn => (cn, (List.lookup cn assigned).getD Value.nullV))
          let tbl2 := { tbl with rows := tbl.rows ++ [(rid, newRow)], nextRowid := rid + 1 }
          .ok ({ db := replaceTable c.db t tbl2, lastRowid := rid }, [], 1)
    | .updateS t setCols whereCol =>
      match findTable c.db t with
      | none => .error ("no such table: " ++ t)
      | some tbl =>
        match setCols.find? (fun cn => !(tbl.cols.contains cn)) with
        | some bad => .error ("no such column: " ++ bad)
        | none =>
          if !(tbl.cols.contains whereCol) then .error ("no such column: " ++ whereCol)
          else
            let setVals := ps.take setCols.length
            let wv := ps.getD setCols.length Value.nullV
            let assigned := setCols.zip setVals
            let rows2 := tbl.rows.map (fun pr =>
              if rowMatches whereCol wv pr.2 then (pr.1, setRow assigned pr.2) else pr)
            let affected := (tbl.rows.filter (fun pr => rowMatches whereCol wv pr.2)).length
            .ok ({ c with db := replaceTable c.db t { tbl with rows := rows2 } }, [], affected)
    | .deleteS t whereCol =>
      match findTable c.db t with
      | none => .error ("no such table: " ++ t)
      | some tbl =>
        if !(tbl.cols.contains whereCol) then .error ("no such column: " ++ whereCol)
        else
          let wv := ps.getD 0 Value.nullV
          let rows2 := tbl.rows.filter (fun pr => !(rowMatches whereCol wv pr.2))
          let affected := (tbl.rows.filter (fun pr => rowMatches whereCol wv pr.2)).length
          .ok ({ c with db := replaceTable c.db t { tbl with rows := rows2 } }, [], affected)
    | .selectAllS t =>
      match findTable c.db t with
      | none => .error ("no such table: " ++ t)
      | some tbl => .ok (c, tbl.rows.map Prod.snd, 0)
    | .selectWhereS t col =>
      match findTable c.db t with
      | none => .error ("no such table: " ++ t)
      | some tbl =>
        if !(tbl.cols.contains col) then .error ("no such column: " ++ col)
        else
          let wv := ps.getD 0 Value.nullV
          .ok (c, (tbl.rows.filter (fun pr => rowMatches col wv pr.2)).map Prod.snd, 0)
    | .lastRowidS =>
      .ok (c, [[("last_insert_rowid()", Value.intV (Int.ofNat c.lastRowid))]], 0)
    | .listTablesS =>
      .ok (c, (sortStrings (c.db.tables.map Table.name)).map
        (fun n => [("name", Value.textV n)]), 0)

/-- The affected-row count of an execution outcome. -/
def affectedOf : Except String (Conn × List Row × Nat) → Option Nat
  | .ok (_, _, n) => some n
  | .error _ => none

/-- Embedding of `execute_query` instantiated with the concrete modelled
engine: a fresh connection is opened (connection-scoped `last_insert_rowid`
starts at 0), the statement is executed with positional binding exactly
when `parameters` is truthy, a select fetches rows without committing (so
the connection's changes are discarded on close), any other statement is
committed (persisting the changes); an engine error becomes a failure
response.  Returns the response and the database state after the call. -/
def execute_query_db (db : DB) (stmt : Stmt) (parameters : Option (List Value)) :
    Response × DB :=
  let conn : Conn := { db := db, lastRowid := 0 }
  let execRes :=
    if paramsTruthy parameters then connExec conn stmt (parameters.getD [])
    else connExec conn stmt []
  match execRes with
  | .error e => (mkFailure e, db)
  | .ok (conn2, rows, _) =>
    if isSelect stmt.toSql then
      ({ success := true, results := some rows }, db)
    else
      ({ success := true, message := some "Query executed successfully" }, conn2.db)

/-- Embedding of the `update_item` handler over the concrete engine: builds
`UPDATE <table> SET <col> = ?, ... WHERE <column> = ?;` from the data
mapping, binds the data values first and the match value last, delegates to
the executor, and on success replaces the message.  The handler's
`try/except` never fires because the executor returns failures as values. -/
def update_item (db : DB) (table_name : String) (value : Value)
    (data : List (String × Value)) (column : String) : Response × DB :=
  let stmt := Stmt.updateS table_name (data.map Prod.fst) column
  let parameters := data.map Prod.snd ++ [value]
  let rd := execute_query_db db stmt (some parameters)
  if rd.1.success then
    ({ success := true, message := some "Item updated successfully" }, rd.2)
  else rd

/-- Embedding of the `create_item` handler over the concrete engine: builds
`INSERT INTO <table> (<cols>) VALUES (<placeholders>);`, executes it, and on
success issues a second executor call `SELECT last_insert_rowid();` — on a
fresh connection — returning its value as `id`; if the id query fails the
insert's own response is returned unchanged. -/
def create_item (db : DB) (table_name : String) (data : List (String × Value)) :
    Response × DB :=
  let stmt := Stmt.insertS table_name (data.map Prod.fst)
  let rd := execute_query_db db stmt (some (data.map Prod.snd))
  if rd.1.success then
    let ird := execute_query_db rd.2 Stmt.lastRowidS none
    if ird.1.success then
      match ird.1.results with
      | some (r :: _) =>
        match List.lookup "last_insert_rowid()" r with
        | some v =>
          ({ success := true, message := some "Item created successfully", id := some v },
            ird.2)
        | none => (mkFailure "KeyError: last_insert_rowid()", ird.2)
      | some [] => (mkFailure "IndexError: list index out of range", ird.2)
      | none => (mkFailure "KeyError: results", ird.2)
    else (rd.1, ird.2)
  else rd

/-- Embedding of the `create_item` handler over abstract engine behaviours
(`b1` for the INSERT call, `b2` for the follow-up id call), used for the
paths on which the engine fails. -/
def create_item_beh (b1 b2 : Behavior) (table_name : String)
    (data : List (String × Value)) : Response :=
  let query := "INSERT INTO " ++ (table_name ++ (" (" ++ (joinComma (data.map Prod.fst) ++
    (") VALUES (" ++ (joinComma (data.map (fun _ => "?")) ++ ");")))))
  let result := execute_query b1 query (some (data.map Prod.snd))
  if result.success then
    let id_result := execute_query b2 "SELECT last_insert_rowid();" none
    if id_result.success then
      match id_result.results with
      | some (r :: _) =>
        match List.lookup "last_insert_rowid()" r with
        | some v =>
          { success := true, message := some "Item created successfully", id := some v }
        | none => mkFailure "KeyError: last_insert_rowid()"
      | some [] => mkFailure "IndexError: list index out of range"
      | none => mkFailure "KeyError: results"
    else result
  else result

/-- Embedding of the `get_all_tables` handler: runs the fixed catalog query
through the executor. -/
def get_all_tables (db : DB) : Response :=
  (execute_query_db db Stmt.listTablesS none).1

/-- The table names carried by a list-tables response: the value of the
`name` column of each result row. -/
def tableNamesOf (r : Response) : List String :=
  match r.results with
  | some rows => rows.filterMap (fun row =>
      match List.lookup "name" row with
      | some (Value.textV s) => some s
      | _ => none)
  | none => []

/-- An engine behaviour in which every step succeeds and a select fetches
no rows. -/
def okB : Behavior :=
  { connect := .ok (), execBound := fun _ => .ok (), execUnbound := .ok (),
    fetchRows := [], commit := .ok () }

/-- An engine behaviour in which opening the database file fails. -/
def connFailB : Behavior :=
  { connect := .error "unable to open database file", execBound := fun _ => .ok (),
    execUnbound := .ok (), fetchRows := [], commit := .ok () }

/-- The binding-arity message for one placeholder and two supplied values. -/
def arityMsgW : String := bindArityMsg 1 2

/-- An engine behaviour in which the execute step fails with a
binding-arity error. -/
def bindFailB : Behavior :=
  { connect := .ok (), execBound := fun _ => .error arityMsgW,
    execUnbound := .error arityMsgW, fetchRows := [], commit := .ok () }

/-- A database with a single empty `users(id, name)` table; the first
insert will receive rowid 1. -/
def c2db : DB :=
  { tables := [{ name := "users", cols := ["id", "name"], rows := [], nextRowid := 1 }] }

/-- A `users(name, age)` table holding two rows named Alice. -/
def c4tbl : Table :=
  { name := "users", cols := ["name", "age"],
    rows := [(1, [("name", Value.textV "Alice"), ("age", Value.intV 30)]),
             (2, [("name", Value.textV "Alice"), ("age", Value.intV 25)])],
    nextRowid := 3 }

/-- A database holding only `c4tbl`. -/
def c4db : DB := { tables := [c4tbl] }

/-- The same schema as `c4db` with no rows at all. -/
def c4db0 : DB :=
  { tables := [{ name := "users", cols := ["name", "age"], rows := [], nextRowid := 1 }] }

/-- The update statement `UPDATE users SET age = ? WHERE name = ?;`. -/
def c4stmt : Stmt := Stmt.updateS "users" ["age"] "name"

/-- Parameters binding `age := 31` and matching `name = Alice`. -/
def c4ps : List Value := [Value.intV 31, Value.textV "Alice"]

/-- The users table of the specification's example scenario:
`users(id, name, email, age)` seeded with Alice and Bob. -/
def exTbl : Table :=
  { name := "users", cols := ["id", "name", "email", "age"],
    rows := [(1, [("id", Value.intV 1), ("name", Value.textV "Alice"),
                  ("email", Value.textV "alice@x.com"), ("age", Value.intV 30)]),
             (2, [("id", Value.intV 2), ("name", Value.textV "Bob"),
                  ("email", Value.textV "bob@x.com"), ("age", Value.intV 25)])],
    nextRowid := 3 }

/-- A database holding only `exTbl`. -/
def exDb : DB := { tables := [exTbl] }

theorem charListLe_total (a b : List Char) : charListLe a b = true ∨ charListLe b a = true := by
  induction a generalizing b with
  | nil => left; rfl
  | cons x xs ih =>
    cases b with
    | nil => right; rfl
    | cons y ys =>
      simp only [charListLe, Bool.or_eq_true, Bool.and_eq_true, Nat.blt_eq, beq_iff_eq]
      rcases Nat.lt_trichotomy x.toNat y.toNat with h | h | h
      · left; left; exact h
      · rcases ih ys with h2 | h2
        · left; right; exact ⟨h, h2⟩
        · right; right; exact ⟨h.symm, h2⟩
      · right; left; exact h

theorem charListLe_trans (a b c : List Char) (h1 : charListLe a b = true)
    (h2 : charListLe b c = true) : charListLe a c = true := by
  induction a generalizing b c with
  | nil => rfl
  | cons x xs ih =>
    cases b with
    | nil => simp [charListLe] at h1
    | cons y ys =>
      cases c with
      | nil => simp [charListLe] at h2
      | cons z zs =>
        simp only [charListLe, Bool.or_eq_true, Bool.and_eq_true, Nat.blt_eq,
          beq_iff_eq] at h1 h2 ⊢
        rcases h1 with h1 | ⟨h1e, h1r⟩
        · rcases h2 with h2 | ⟨h2e, h2r⟩
          · left; omega
          · left; omega
        · rcases h2 with h2 | ⟨h2e, h2r⟩
          · left; omega
          · right; exact ⟨h1e.trans h2e, ih ys zs h1r h2r⟩

theorem zip_map_fst_snd (l : List (String × Value)) :
    (l.map Prod.fst).zip (l.map Prod.snd) = l := by
  induction l with
  | nil => rfl
  | cons x xs ih => simp [ih]

theorem lookup_eq_none_of_not_mem (c : String) (l : List (String × Value))
    (h : c ∉ l.map Prod.fst) : List.lookup c l = none := by
  induction l with
  | nil => rfl
  | cons x xs ih =>
    simp only [List.map_cons, List.mem_cons, not_or] at h
    simp only [List.lookup]
    have : (c == x.1) = false := beq_eq_false_iff_ne.mpr h.1
    rw [this]
    exact ih h.2

theorem lookup_of_mem_nodup (c : String) (v : Value) (l : List (String × Value))
    (hnd : (l.map Prod.fst).Nodup) (hm : (c, v) ∈ l) : List.lookup c l = some v := by
  induction l with
  | nil => simp at hm
  | cons x xs ih =>
    simp only [List.map_cons, List.nodup_cons] at hnd
    rcases List.mem_cons.mp hm with h | h
    · subst h
      simp [List.lookup]
    · have hcx : (c == x.1) = false := by
        refine beq_eq_false_iff_ne.mpr ?_
        intro hceq
        exact hnd.1 (hceq ▸ (List.mem_map_of_mem Prod.fst h))
      simp only [List.lookup]
      rw [hcx]
      exact ih hnd.2 h

theorem setRow_frame (assigned : List (String × Value)) (c : String) (r : Row)
    (h : c ∉ assigned.map Prod.fst) :
    List.lookup c (setRow assigned r) = List.lookup c r := by
  induction r with
  | nil => rfl
  | cons p ps ih =>
    obtain ⟨k, w⟩ := p
    by_cases hc : c = k
    · have hn : List.lookup k assigned = none := by
        rw [← hc]
        exact lookup_eq_none_of_not_mem c assigned h
      have hcb : (c == k) = true := beq_iff_eq.mpr hc
      simp [setRow, List.lookup, hn, hcb]
    · have hcb : (c == k) = false := beq_eq_false_iff_ne.mpr hc
      cases hl : List.lookup k assigned with
      | none =>
        simp only [setRow, List.map_cons, hl, List.lookup, hcb]
        exact ih
      | some nv =>
        simp only [setRow, List.map_cons, hl, List.lookup, hcb]
        exact ih

theorem setRow_sets (assigned : List (String × Value)) (c : String) (v : Value) (r : Row)
    (hnd : (assigned.map Prod.fst).Nodup) (hm : (c, v) ∈ assigned)
    (hr : c ∈ r.map Prod.fst) :
    List.lookup c (setRow assigned r) = some v := by
  induction r with
  | nil => simp at hr
  | cons p ps ih =>
    obtain ⟨k, w⟩ := p
    simp only [List.map_cons, List.mem_cons] at hr
    by_cases hc : c = k
    · have hk : List.lookup k assigned = some v := by
        rw [← hc]
        exact lookup_of_mem_nodup _ _ _ hnd hm
      have hcb : (c == k) = true := beq_iff_eq.mpr hc
      simp [setRow, List.lookup, hk, hcb]
    · have hcb : (c == k) = false := beq_eq_false_iff_ne.mpr hc
      have hr2 : c ∈ ps.map Prod.fst := by
        rcases hr with h | h
        · exact absurd h hc
        · exact h
      cases hl : List.lookup k assigned with
      | none =>
        simp only [setRow, List.map_cons, hl, List.lookup, hcb]
        exact ih hr2
      | some nv =>
        simp only [setRow, List.map_cons, hl, List.lookup, hcb]
        exact ih hr2

theorem dropWhile_append_last (p : Char → Bool) (xs : List Char) (a : Char)
    (h : p a = false) : (xs ++ [a]).dropWhile p = xs.dropWhile p ++ [a] := by
  rw [List.dropWhile_append]
  by_cases he : (xs.dropWhile p).isEmpty
  · rw [if_pos he]
    rw [List.isEmpty_iff] at he
    rw [he]
    simp [List.dropWhile, h]
  · rw [if_neg he]

theorem pyStrip_cons_head (c : Char) (l : List Char) (h : c.isWhitespace = false) :
    pyStrip (c :: l) = c :: (l.reverse.dropWhile Char.isWhitespace).reverse := by
  unfold pyStrip
  rw [List.dropWhile_cons, if_neg (by simp [h]), List.reverse_cons,
    dropWhile_append_last _ _ _ h, List.reverse_append]
  rfl

theorem isSelect_false_of_head (q : String) (c : Char) (l : List Char)
    (hdata : q.data = c :: l) (hws : c.isWhitespace = false) (hc : c.toLower ≠ 's') :
    isSelect q = false := by
  unfold isSelect
  have ht : q.toList = c :: l := hdata
  rw [ht, pyStrip_cons_head c l hws, List.map_cons]
  have hsel : "select".toList = 's' :: ['e', 'l', 'e', 'c', 't'] := rfl
  rw [hsel]
  have hbeq : ('s' == c.toLower) = false := beq_eq_false_iff_ne.mpr (Ne.symm hc)
  simp [List.isPrefixOf, hbeq]

theorem isSelect_update_stmt (t : String) (setCols : List String) (whereCol : String) :
    isSelect (Stmt.toSql (Stmt.updateS t setCols whereCol)) = false := by
  refine isSelect_false_of_head _ 'U'
    (['P', 'D', 'A', 'T', 'E', ' '] ++
      (t ++ (" SET " ++ (joinComma (setCols.map (fun c => c ++ " = ?")) ++
        (" WHERE " ++ (whereCol ++ " = ?;"))))).data) ?_ rfl (by decide)
  show ("UPDATE " ++ _).data = _
  rw [String.data_append]
  rfl

theorem isSelect_insert_sql (t cols placeholders : String) :
    isSelect ("INSERT INTO " ++ (t ++ (" (" ++ (cols ++
      (") VALUES (" ++ (placeholders ++ ");")))))) = false := by
  refine isSelect_false_of_head _ 'I'
    (['N', 'S', 'E', 'R', 'T', ' ', 'I', 'N', 'T', 'O', ' '] ++
      (t ++ (" (" ++ (cols ++ (") VALUES (" ++ (placeholders ++ ");"))))).data) ?_ rfl
    (by decide)
  show ("INSERT INTO " ++ _).data = _
  rw [String.data_append]
  rfl

/-- Claim C1: for every statement and parameter list, `execute_query` never
propagates an exception to its caller — any failure during connection,
binding, or execution (including a parameter-count mismatch between
placeholders and supplied parameters, which surfaces as a binding error of
the execute step) results in the returned value
`{success: false, error: stringified error}`.  The embedding is a total
function into `Response`, and each failing engine step yields exactly
`mkFailure` of its stringified error. -/
theorem claim_C1_executor_never_throws (b : Behavior) (q : String)
    (ps : Option (List Value)) (e : String) :
    (b.connect = .error e → execute_query b q ps = mkFailure e) ∧
    (b.connect = .ok () → effExec b ps = .error e → execute_query b q ps = mkFailure e) ∧
    (b.connect = .ok () → effExec b ps = .ok () → isSelect q = false →
      b.commit = .error e → execute_query b q ps = mkFailure e) ∧
    ((execute_query b q ps).success = false →
      execute_query b q ps = mkFailure ((execute_query b q ps).error.getD "")) := by
  refine ⟨?_, ?_, ?_, ?_⟩
  · intro h
    simp [execute_query, execute_query_ev, h]
  · intro h1 h2
    simp [execute_query, execute_query_ev, h1, h2]
  · intro h1 h2 h3 h4
    simp [execute_query, execute_query_ev, h1, h2, h3, h4]
  · cases hcon : b.connect with
    | error e2 => simp [execute_query, execute_query_ev, hcon, mkFailure]
    | ok u =>
      cases u
      cases hex : effExec b ps with
      | error e2 => simp [execute_query, execute_query_ev, hcon, hex, mkFailure]
      | ok u2 =>
        cases u2
        by_cases hsel : isSelect q
        · simp [execute_query, execute_query_ev, hcon, hex, hsel]
        · cases hcm : b.commit with
          | error e2 =>
            simp [execute_query, execute_query_ev, hcon, hex, hsel, hcm, mkFailure]
          | ok u3 =>
            cases u3
            simp [execute_query, execute_query_ev, hcon, hex, hsel, hcm]

/-- Witness for C1: a parameter-count mismatch (one placeholder, two
parameters) makes the execute step fail with the binding-arity error, and
the call returns the corresponding failure response. -/
theorem claim_C1_witness :
    bindFailB.connect = .ok () ∧
    effExec bindFailB (some [Value.intV 1, Value.intV 2]) = .error arityMsgW ∧
    execute_query bindFailB "SELECT * FROM users WHERE id = ?;"
      (some [Value.intV 1, Value.intV 2]) = mkFailure arityMsgW :=
  ⟨rfl, rfl,
    (claim_C1_executor_never_throws bindFailB "SELECT * FROM users WHERE id = ?;"
      (some [Value.intV 1, Value.intV 2]) arityMsgW).2.1 rfl rfl⟩

/-- Claim C9: calling `execute_query` with an explicitly empty parameter
collection is identical to calling it with no parameters at all — the
Python guard `if parameters:` is falsy for both `None` and an empty
collection, so the unbound execute path runs in both cases and any
placeholder-arity failure is the same. -/
theorem claim_C9_empty_params_equals_none (b : Behavior) (q : String) :
    execute_query_ev b q (some []) = execute_query_ev b q none := rfl

/-- Claim C6: every response of `execute_query` populates exactly one of
the three variants (results, message, error), and the success flag is true
exactly when the error variant is absent. -/
theorem claim_C6_exactly_one_variant (b : Behavior) (q : String) (ps : Option (List Value)) :
    popCount (execute_query b q ps) = 1 ∧
    ((execute_query b q ps).success = true ↔ (execute_query b q ps).error = none) := by
  cases hcon : b.connect with
  | error e => simp [execute_query, execute_query_ev, hcon, popCount, mkFailure]
  | ok u =>
    cases u
    cases hex : effExec b ps with
    | error e2 => simp [execute_query, execute_query_ev, hcon, hex, popCount, mkFailure]
    | ok u2 =>
      cases u2
      by_cases hsel : isSelect q
      · simp [execute_query, execute_query_ev, hcon, hex, hsel, popCount]
      · cases hcm : b.commit with
        | error e2 =>
          simp [execute_query, execute_query_ev, hcon, hex, hsel, hcm, popCount, mkFailure]
        | ok u3 =>
          cases u3
          simp [execute_query, execute_query_ev, hcon, hex, hsel, hcm, popCount]

/-- Claim C3: `execute_query` classifies a statement as a read exactly when,
after trimming surrounding whitespace, it begins case-insensitively with
"select"; a read returns all fetched rows as the results list without any
commit event, and any other statement is committed and returns the
acknowledgement with no results. -/
theorem claim_C3_select_classification (b : Behavior) (q : String)
    (ps : Option (List Value)) (hc : b.connect = .ok ())
    (he : effExec b ps = .ok ()) (hm : b.commit = .ok ()) :
    ("select".toList.isPrefixOf ((pyStrip q.toList).map Char.toLower) = true →
      execute_query_ev b q ps =
        ({ success := true, results := some b.fetchRows },
          [Event.openConn, Event.closeConn])) ∧
    ("select".toList.isPrefixOf ((pyStrip q.toList).map Char.toLower) = false →
      execute_query_ev b q ps =
        ({ success := true, message := some "Query executed successfully" },
          [Event.openConn, Event.commitEv, Event.closeConn])) := by
  constructor
  · intro hsel
    have hs : isSelect q = true := hsel
    simp [execute_query_ev, hc, he, hs]
  · intro hsel
    have hs : isSelect q = false := hsel
    simp [execute_query_ev, hc, he, hm, hs]

/-- Witness for C3: a select statement with leading whitespace takes the
read path, returning the fetched rows with no commit event. -/
theorem claim_C3_witness :
    execute_query_ev okB "  SELECT * FROM users;" none =
      ({ success := true, results := some [] }, [Event.openConn, Event.closeConn]) :=
  (claim_C3_select_classification okB "  SELECT * FROM users;" none rfl rfl rfl).1
    (by decide)

/-- Claim C4 as amended: a write statement that executes without error is
acknowledged with the fixed response
`{success: true, message: "Query executed successfully"}`; neither the
number of rows affected nor the last inserted id appears in the response. -/
theorem claim_C4_amended_write_ack (b : Behavior) (q : String)
    (ps : Option (List Value)) (hc : b.connect = .ok ())
    (he : effExec b ps = .ok ()) (hm : b.commit = .ok ())
    (hsel : isSelect q = false) :
    execute_query b q ps =
      { success := true, message := some "Query executed successfully" } := by
  simp [execute_query, execute_query_ev, hc, he, hm, hsel]

/-- Counterexample for C4 as stated: the same update statement affecting 2
rows in one database and 0 rows in another yields bit-for-bit identical
acknowledgements — the fixed message with no results, no id and no error —
so the response is not populated with the rows-affected count (nor any
last-inserted id). -/
theorem claim_C4_counterexample :
    affectedOf (connExec { db := c4db, lastRowid := 0 } c4stmt c4ps) = some 2 ∧
    affectedOf (connExec { db := c4db0, lastRowid := 0 } c4stmt c4ps) = some 0 ∧
    (execute_query_db c4db c4stmt (some c4ps)).1 =
      (execute_query_db c4db0 c4stmt (some c4ps)).1 ∧
    (execute_query_db c4db c4stmt (some c4ps)).1 =
      { success := true, message := some "Query executed successfully" } := by
  decide

/-- Witness for C4 as amended: a successfully executed update returns the
fixed acknowledgement. -/
theorem claim_C4_witness :
    execute_query okB "UPDATE users SET age = ? WHERE name = ?;" (some c4ps) =
      { success := true, message := some "Query executed successfully" } :=
  claim_C4_amended_write_ack okB "UPDATE users SET age = ? WHERE name = ?;"
    (some c4ps) rfl rfl rfl (by decide)

/-- Claim C8 as amended: at most one connection is opened per
`execute_query` call — exactly one whenever connection establishment
succeeds — every opened connection is closed before the call returns on
every exit path (including engine failures during execution), the close is
the last event, and no connection survives the call; when connection
establishment itself fails, no connection is opened and none is closed. -/
theorem claim_C8_amended_connection_discipline (b : Behavior) (q : String)
    (ps : Option (List Value)) :
    ((execute_query_ev b q ps).2.count Event.openConn ≤ 1) ∧
    ((execute_query_ev b q ps).2.count Event.closeConn =
      (execute_query_ev b q ps).2.count Event.openConn) ∧
    (b.connect = .ok () →
      (execute_query_ev b q ps).2.count Event.openConn = 1 ∧
      (execute_query_ev b q ps).2.head? = some Event.openConn ∧
      (execute_query_ev b q ps).2.getLast? = some Event.closeConn) ∧
    (∀ e, b.connect = .error e → (execute_query_ev b q ps).2 = []) := by
  cases hcon : b.connect with
  | error e => simp [execute_query_ev, hcon]
  | ok u =>
    cases u
    cases hex : effExec b ps with
    | error e2 => simp [execute_query_ev, hcon, hex]
    | ok u2 =>
      cases u2
      by_cases hsel : isSelect q
      · simp [execute_query_ev, hcon, hex, hsel]
      · cases hcm : b.commit with
        | error e2 => simp [execute_query_ev, hcon, hex, hsel, hcm]
        | ok u3 =>
          cases u3
          simp [execute_query_ev, hcon, hex, hsel, hcm]

/-- Counterexample for C8 as stated: when opening the database file fails,
the call opens no connection at all (the claim demands exactly one); the
failure is still returned as a value. -/
theorem claim_C8_counterexample :
    (execute_query_ev connFailB "SELECT * FROM users;" none).2 = [] ∧
    ¬((execute_query_ev connFailB "SELECT * FROM users;" none).2.count
        Event.openConn = 1) ∧
    (execute_query_ev connFailB "SELECT * FROM users;" none).1 =
      mkFailure "unable to open database file" := by
  decide

/-- Witness for C8 as amended: with a healthy engine the trace opens
exactly one connection, first, and closes it last. -/
theorem claim_C8_witness :
    (execute_query_ev okB "SELECT 1;" none).2.count Event.openConn = 1 ∧
    (execute_query_ev okB "SELECT 1;" none).2.head? = some Event.openConn ∧
    (execute_query_ev okB "SELECT 1;" none).2.getLast? = some Event.closeConn :=
  (claim_C8_amended_connection_discipline okB "SELECT 1;" none).2.2.1 rfl

/-- Claim C2 evaluation: on a database whose `users(id, name)` table is
empty, `create_item` inserts a row that receives rowid 1, but the follow-up
`SELECT last_insert_rowid();` runs on a fresh connection whose
connection-scoped counter is still 0, so the handler returns
`{success: true, id: 0}` — not the identifier of the row the INSERT just
created. -/
theorem claim_C2_code_evaluation :
    (create_item c2db "users" [("name", Value.textV "Alice")]).1 =
      { success := true, message := some "Item created successfully",
        id := some (Value.intV 0) } ∧
    (findTable (create_item c2db "users" [("name", Value.textV "Alice")]).2
        "users").map Table.rows =
      some [(1, [("id", Value.nullV), ("name", Value.textV "Alice")])] := by
  decide

/-- Claim C10: when the INSERT succeeds but the follow-up last-insert-id
query fails, `create_item` returns the insert's own success response — the
generic executor acknowledgement with no id field. -/
theorem claim_C10_create_id_query_failure (b1 b2 : Behavior) (t : String)
    (data : List (String × Value))
    (hc : b1.connect = .ok ())
    (he : effExec b1 (some (data.map Prod.snd)) = .ok ())
    (hm : b1.commit = .ok ())
    (hfail : (execute_query b2 "SELECT last_insert_rowid();" none).success = false) :
    create_item_beh b1 b2 t data =
      { success := true, message := some "Query executed successfully" } := by
  have hsel : isSelect ("INSERT INTO " ++ (t ++ (" (" ++ (joinComma (data.map Prod.fst) ++
      (") VALUES (" ++ (joinComma (data.map (fun _ => "?")) ++ ");")))))) = false :=
    isSelect_insert_sql t _ _
  have hsel2 : isSelect ("INSERT INTO " ++ (t ++ (" (" ++ (joinComma (data.map Prod.fst) ++
      (") VALUES (" ++ (joinComma (List.replicate data.length "?") ++ ");")))))) = false :=
    isSelect_insert_sql t _ _
  have hres : execute_query b1 ("INSERT INTO " ++ (t ++ (" (" ++
      (joinComma (data.map Prod.fst) ++ (") VALUES (" ++
        (joinComma (List.replicate data.length "?") ++ ");"))))))
      (some (data.map Prod.snd)) =
      { success := true, message := some "Query executed successfully" } := by
    simp [execute_query, execute_query_ev, hc, he, hm, hsel2]
  simp [create_item_beh, hres, hfail]

/-- Witness for C10: with a healthy engine for the INSERT and a failing
connection for the id query, the create handler returns the generic insert
acknowledgement without an id. -/
theorem claim_C10_witness :
    (execute_query connFailB "SELECT last_insert_rowid();" none).success = false ∧
    create_item_beh okB connFailB "users" [("name", Value.textV "Alice")] =
      { success := true, message := some "Query executed successfully" } :=
  ⟨rfl, claim_C10_create_id_query_failure okB connFailB "users"
    [("name", Value.textV "Alice")] rfl rfl rfl rfl⟩

theorem names_extract (l : List String) :
    (l.map (fun n => [("name", Value.textV n)])).filterMap (fun row =>
      match List.lookup "name" row with
      | some (Value.textV s) => some s
      | _ => none) = l := by
  induction l with
  | nil => rfl
  | cons x xs ih => simp [List.filterMap_cons, List.lookup, ih]

theorem get_all_tables_eval (db : DB) :
    get_all_tables db =
      { success := true, results := some ((sortStrings (db.tables.map Table.name)).map
          (fun n => [("name", Value.textV n)])) } := by
  have hsel : isSelect (Stmt.toSql Stmt.listTablesS) = true := by decide
  simp [get_all_tables, execute_query_db, paramsTruthy, connExec, syntaxError?,
    Stmt.placeholders, hsel]

/-- Claim C7: for every database state, the list-tables tool succeeds and
returns the names of all tables in the database — every table present at
the time of the call, and nothing else — in ascending lexical
(BINARY-collation) order. -/
theorem claim_C7_list_tables_sorted_complete (db : DB) :
    (get_all_tables db).success = true ∧
    List.Sorted (fun a b => strLe a b = true) (tableNamesOf (get_all_tables db)) ∧
    (tableNamesOf (get_all_tables db)).Perm (db.tables.map Table.name) := by
  have hev := get_all_tables_eval db
  have hnames : tableNamesOf (get_all_tables db) =
      sortStrings (db.tables.map Table.name) := by
    rw [hev]
    simp only [tableNamesOf]
    exact names_extract _
  refine ⟨by rw [hev], ?_, ?_⟩
  · rw [hnames]
    haveI : IsTotal String (fun a b => strLe a b = true) :=
      ⟨fun a b => charListLe_total a.data b.data⟩
    haveI : IsTrans String (fun a b => strLe a b = true) :=
      ⟨fun a b c => charListLe_trans a.data b.data c.data⟩
    exact List.sorted_insertionSort _ _
  · rw [hnames]
    exact List.perm_insertionSort _ _

theorem update_connExec_eval (db : DB) (tname : String) (mval : Value)
    (data : List (String × Value)) (col : String) (tbl : Table)
    (hdata : data ≠ [])
    (hfind : findTable db tname = some tbl)
    (hcols : (data.map Prod.fst).all (fun cn => tbl.cols.contains cn) = true)
    (hwcol : tbl.cols.contains col = true) :
    connExec { db := db, lastRowid := 0 } (Stmt.updateS tname (data.map Prod.fst) col)
        (data.map Prod.snd ++ [mval]) =
      .ok ({ db := replaceTable db tname (updatedTable tbl data col mval), lastRowid := 0 },
        [], (tbl.rows.filter (fun pr => rowMatches col mval pr.2)).length) := by
  have hsyn : syntaxError? (Stmt.updateS tname (data.map Prod.fst) col) = none := by
    cases data with
    | nil => exact absurd rfl hdata
    | cons p rest => rfl
  have hfindnone : (data.map Prod.fst).find? (fun cn => !(tbl.cols.contains cn)) = none := by
    rw [List.find?_eq_none]
    intro x hx
    have hx2 : tbl.cols.contains x = true := List.all_eq_true.mp hcols x hx
    simp only [hx2]
    decide
  have hlen : (data.map Prod.fst).length = (data.map Prod.snd).length := by simp
  have htake : (data.map Prod.snd ++ [mval]).take (data.map Prod.fst).length =
      data.map Prod.snd := by
    rw [hlen, List.take_left]
  have hgetD : (data.map Prod.snd ++ [mval]).getD (data.map Prod.fst).length
      Value.nullV = mval := by
    rw [hlen]
    simp
  have hzip : (data.map Prod.fst).zip (data.map Prod.snd) = data := zip_map_fst_snd data
  simp only [connExec, hsyn, Stmt.placeholders, hfind, hfindnone, hwcol, Bool.not_true,
    Bool.false_eq_true, if_false, htake, hgetD, hzip, updatedTable]
  rw [if_neg (by simp)]

/-- Claim C5: for a non-empty data mapping (an empty one renders the
degenerate `SET` clause that fails at the engine's prepare step), an
update on a matched row changes exactly the columns named in the data
mapping to the given values (conjunct on `setRow` for columns in the
mapping) and leaves every other column of that row and every non-matching
row unchanged (`updatedTable` keeps non-matching rows as they are, and
`setRow` preserves columns outside the mapping); an update whose match
value matches no row affects zero rows — the affected count is the number
of matching rows — and the handler still returns the success response. -/
theorem claim_C5_update_frame (db : DB) (tname : String) (mval : Value)
    (data : List (String × Value)) (col : String) (tbl : Table)
    (hdata : data ≠ [])
    (hfind : findTable db tname = some tbl)
    (hcols : (data.map Prod.fst).all (fun cn => tbl.cols.contains cn) = true)
    (hwcol : tbl.cols.contains col = true)
    (hnodup : (data.map Prod.fst).Nodup) :
    (update_item db tname mval data col).1 =
      { success := true, message := some "Item updated successfully" } ∧
    (update_item db tname mval data col).2 =
      replaceTable db tname (updatedTable tbl data col mval) ∧
    (∀ c r, c ∉ data.map Prod.fst →
      List.lookup c (setRow data r) = List.lookup c r) ∧
    (∀ c v r, (c, v) ∈ data → c ∈ r.map Prod.fst →
      List.lookup c (setRow data r) = some v) ∧
    affectedOf (connExec { db := db, lastRowid := 0 }
        (Stmt.updateS tname (data.map Prod.fst) col) (data.map Prod.snd ++ [mval])) =
      some ((tbl.rows.filter (fun pr => rowMatches col mval pr.2)).length) := by
  have hev := update_connExec_eval db tname mval data col tbl hdata hfind hcols hwcol
  have hne : paramsTruthy (some (data.map Prod.snd ++ [mval])) = true := by
    simp [paramsTruthy]
  have hsel := isSelect_update_stmt tname (data.map Prod.fst) col
  have hdb : execute_query_db db (Stmt.updateS tname (data.map Prod.fst) col)
      (some (data.map Prod.snd ++ [mval])) =
      ({ success := true, message := some "Query executed successfully" },
        replaceTable db tname (updatedTable tbl data col mval)) := by
    simp only [execute_query_db, hne, if_true, Option.getD_some, hev, hsel]
    simp
  refine ⟨?_, ?_, ?_, ?_, ?_⟩
  · simp [update_item, hdb]
  · simp [update_item, hdb]
  · intro c r hc
    exact setRow_frame data c r hc
  · intro c v r hm hr
    exact setRow_sets data c v r hnodup hm hr
  · rw [hev]
    rfl

/-- Witness for C5: the specification's example — on `users(id, name,
email, age)` seeded with Alice (id 1, age 30) and Bob, updating with match
value 1 on column id and data setting age to 31 succeeds. -/
theorem claim_C5_witness :
    (update_item exDb "users" (Value.intV 1) [("age", Value.intV 31)] "id").1 =
      { success := true, message := some "Item updated successfully" } :=
  (claim_C5_update_frame exDb "users" (Value.intV 1) [("age", Value.intV 31)] "id" exTbl
    (by decide) (by decide) (by decide) (by decide) (by decide)).1
